import Mathlib

/-!
Verification of the coordinate-scaling, action-dispatch and agent-loop logic
of the computer-use-windows repository (src/computer_use_agent.py and
src/computer_use_mcp.py), via a shallow embedding in Lean 4.

Python floats are modelled by exact rationals (ℚ); Python `int(...)`
truncation toward zero is modelled by `pyInt`.
-/

/-- Model of Python `int(q)` on a rational: truncation toward zero. -/
def pyInt (q : ℚ) : ℤ :=
  if q < 0 then ⌈q⌉ else ⌊q⌋

/-- `DisplayConfig` from computer_use_agent.py: the controlled display. -/
structure DisplayConfig where
  width : ℕ
  height : ℕ
  display_number : ℕ

namespace ScreenCapture

/-- `ScreenCapture._calculate_scale_factor`: keep screenshots under
`max_dimension`.  Returns `1.0` when the display already fits, otherwise
`max_dimension / max(width, height)` (float division modelled exactly in ℚ). -/
def _calculate_scale_factor (width height max_dimension : ℕ) : ℚ :=
  let max_actual := max width height
  if max_actual ≤ max_dimension then 1
  else (max_dimension : ℚ) / (max_actual : ℚ)

/-- `ScreenCapture.scale_coordinates`: map a point from API (scaled-image)
space to native screen space.  `int(x / scale)` when the scale factor is
below one, identity otherwise. -/
def scale_coordinates (s : ℚ) (x y : ℤ) : ℤ × ℤ :=
  if s < 1 then (pyInt ((x : ℚ) / s), pyInt ((y : ℚ) / s))
  else (x, y)

/-- The native→scaled point map induced by `ScreenCapture.capture`'s resize:
`int(native * scale)` when the scale factor is below one, identity
otherwise. -/
def native_to_scaled (s : ℚ) (x : ℤ) : ℤ :=
  if s < 1 then pyInt ((x : ℚ) * s) else x

end ScreenCapture

/-- An input-injection side effect performed through pyautogui, plus the
synchronous sleep of `time.sleep`. -/
inductive InputEvent where
  | click (x y : ℤ)
  | rightClick (x y : ℤ)
  | middleClick (x y : ℤ)
  | doubleClick (x y : ℤ)
  | tripleClick (x y : ℤ)
  | moveTo (x y : ℤ)
  | drag (dx dy : ℤ)
  | typewrite (text : String)
  | hotkey (keys : List String)
  | press (key : String)
  | scroll (clicks : ℤ)
  | hscroll (clicks : ℤ)
  | keyDown (key : String)
  | sleep (seconds : ℤ)
deriving DecidableEq, Repr

/-- The keyword-argument mapping passed to `ActionExecutor.execute`.  Each
field is `none` when the caller did not supply that keyword. -/
structure Params where
  coordinate : Option (List ℤ) := none
  start_coordinate : Option (List ℤ) := none
  end_coordinate : Option (List ℤ) := none
  text : Option String := none
  key : Option String := none
  direction : Option String := none
  amount : Option ℤ := none
  duration : Option ℤ := none
deriving DecidableEq, Repr

/-- Outcome of calling one `_action_*` handler: the input events injected
before the handler returned or raised, and either the returned status
string (`ok`) or the message of the raised exception (`error`). -/
abbrev HandlerResult := List InputEvent × Except String String

/-- A handler takes the screen's scale factor and the keyword arguments. -/
abbrev Handler := ℚ → Params → HandlerResult

namespace ActionExecutor

/-- `_action_screenshot`: screenshots are handled in the agent loop. -/
def _action_screenshot : Handler := fun _ _ =>
  ([], .ok "Screenshot captured")

/-- Read `coordinate[0]`, `coordinate[1]` from a required list argument:
a missing keyword raises a TypeError, a too-short list an IndexError. -/
def getCoordinate (c : Option (List ℤ)) (name : String) : Except String (ℤ × ℤ) :=
  match c with
  | none => .error s!"missing a required argument: {name}"
  | some [] => .error "list index out of range"
  | some [_] => .error "list index out of range"
  | some (x :: y :: _) => .ok (x, y)

/-- `_action_left_click`. -/
def _action_left_click : Handler := fun s p =>
  match getCoordinate p.coordinate "coordinate" with
  | .error e => ([], .error e)
  | .ok (cx, cy) =>
      let (x, y) := ScreenCapture.scale_coordinates s cx cy
      ([.click x y], .ok s!"Left clicked at ({x}, {y})")

/-- `_action_right_click`. -/
def _action_right_click : Handler := fun s p =>
  match getCoordinate p.coordinate "coordinate" with
  | .error e => ([], .error e)
  | .ok (cx, cy) =>
      let (x, y) := ScreenCapture.scale_coordinates s cx cy
      ([.rightClick x y], .ok s!"Right clicked at ({x}, {y})")

/-- `_action_middle_click`. -/
def _action_middle_click : Handler := fun s p =>
  match getCoordinate p.coordinate "coordinate" with
  | .error e => ([], .error e)
  | .ok (cx, cy) =>
      let (x, y) := ScreenCapture.scale_coordinates s cx cy
      ([.middleClick x y], .ok s!"Middle clicked at ({x}, {y})")

/-- `_action_double_click`. -/
def _action_double_click : Handler := fun s p =>
  match getCoordinate p.coordinate "coordinate" with
  | .error e => ([], .error e)
  | .ok (cx, cy) =>
      let (x, y) := ScreenCapture.scale_coordinates s cx cy
      ([.doubleClick x y], .ok s!"Double clicked at ({x}, {y})")

/-- `_action_triple_click`. -/
def _action_triple_click : Handler := fun s p =>
  match getCoordinate p.coordinate "coordinate" with
  | .error e => ([], .error e)
  | .ok (cx, cy) =>
      let (x, y) := ScreenCapture.scale_coordinates s cx cy
      ([.tripleClick x y], .ok s!"Triple clicked at ({x}, {y})")

/-- `_action_mouse_move`. -/
def _action_mouse_move : Handler := fun s p =>
  match getCoordinate p.coordinate "coordinate" with
  | .error e => ([], .error e)
  | .ok (cx, cy) =>
      let (x, y) := ScreenCapture.scale_coordinates s cx cy
      ([.moveTo x y], .ok s!"Moved mouse to ({x}, {y})")

/-- `_action_left_click_drag`: move to the scaled start point, then drag by
the scaled offset. -/
def _action_left_click_drag : Handler := fun s p =>
  match getCoordinate p.start_coordinate "start_coordinate" with
  | .error e => ([], .error e)
  | .ok (scx, scy) =>
    match getCoordinate p.end_coordinate "end_coordinate" with
    | .error e => ([], .error e)
    | .ok (ecx, ecy) =>
        let (sx, sy) := ScreenCapture.scale_coordinates s scx scy
        let (ex, ey) := ScreenCapture.scale_coordinates s ecx ecy
        ([.moveTo sx sy, .drag (ex - sx) (ey - sy)],
          .ok s!"Dragged from ({sx}, {sy}) to ({ex}, {ey})")

/-- `_action_type`: type the text; the status echoes at most 50 characters. -/
def _action_type : Handler := fun _ p =>
  match p.text with
  | none => ([], .error "missing a required argument: text")
  | some text =>
      ([.typewrite text],
        .ok (s!"Typed: {text.take 50}" ++ if text.length > 50 then "..." else ""))

/-- `_action_key`: a "+"-separated combination becomes a hotkey, a single
key a plain press. -/
def _action_key : Handler := fun _ p =>
  match p.key with
  | none => ([], .error "missing a required argument: key")
  | some key =>
      let keys := key.toLower.splitOn "+"
      (if keys.length > 1 then [.hotkey keys] else [.press key],
        .ok s!"Pressed key: {key}")

/-- `_action_scroll`: move to the scaled point, then scroll vertically for
"up"/"down" and horizontally otherwise.  `scroll_amount` is `amount` for
"up" and `-amount` for every other direction; the horizontal call negates
it again for directions other than "right". -/
def _action_scroll : Handler := fun s p =>
  match getCoordinate p.coordinate "coordinate" with
  | .error e => ([], .error e)
  | .ok (cx, cy) =>
    match p.direction with
    | none => ([], .error "missing a required argument: direction")
    | some direction =>
        let amount := p.amount.getD 3
        let (x, y) := ScreenCapture.scale_coordinates s cx cy
        let scroll_amount := if direction = "up" then amount else -amount
        ([.moveTo x y] ++
          (if direction = "up" ∨ direction = "down" then
            [.scroll scroll_amount]
          else
            [.hscroll (if direction = "right" then scroll_amount else -scroll_amount)]),
          .ok s!"Scrolled {direction} by {amount} at ({x}, {y})")

/-- `_action_wait`: sleep synchronously for `duration` seconds (default 1). -/
def _action_wait : Handler := fun _ p =>
  let duration := p.duration.getD 1
  ([.sleep duration], .ok s!"Waited {duration} seconds")

/-- `_action_hold_key`. -/
def _action_hold_key : Handler := fun _ p =>
  match p.key with
  | none => ([], .error "missing a required argument: key")
  | some key => ([.keyDown key], .ok s!"Holding key: {key}")

/-- `getattr(self, f"_action_\x7baction\x7d", None)`: look up the handler
method for an action name; `none` models the `None` default. -/
def findHandler : String → Option Handler
  | "screenshot" => some _action_screenshot
  | "left_click" => some _action_left_click
  | "right_click" => some _action_right_click
  | "middle_click" => some _action_middle_click
  | "double_click" => some _action_double_click
  | "triple_click" => some _action_triple_click
  | "mouse_move" => some _action_mouse_move
  | "left_click_drag" => some _action_left_click_drag
  | "type" => some _action_type
  | "key" => some _action_key
  | "scroll" => some _action_scroll
  | "wait" => some _action_wait
  | "hold_key" => some _action_hold_key
  | _ => none

/-- `ActionExecutor.execute`: dispatch by name inside a try/except.  An
unknown action returns "Unknown action: ..." with no side effect; a raised
exception is caught and converted to "Error executing ...". -/
def execute (s : ℚ) (action : String) (params : Params) : List InputEvent × String :=
  match findHandler action with
  | none => ([], s!"Unknown action: {action}")
  | some handler =>
    match handler s params with
    | (events, .ok msg) => (events, msg)
    | (events, .error e) => (events, s!"Error executing {action}: {e}")

end ActionExecutor

namespace MCP

/-- The `scroll` tool of computer_use_mcp.py: move to (x, y), then
`pyautogui.scroll(±amount)` for "up"/"down", otherwise
`pyautogui.hscroll(amount)` for "right" and `pyautogui.hscroll(-amount)`
for any other direction. -/
def scroll (x y : ℤ) (direction : String) (amount : ℤ) : List InputEvent × String :=
  ([.moveTo x y] ++
    (if direction = "up" ∨ direction = "down" then
      [.scroll (if direction = "up" then amount else -amount)]
    else
      [.hscroll (if direction = "right" then amount else -amount)]),
    s!"Scrolled {direction} by {amount} at ({x}, {y})")

/-- The tools registered with `@mcp.tool()` in computer_use_mcp.py, with
their parameters.  `seconds` of `wait` is a Python float, modelled in ℚ. -/
inductive MCPTool where
  | screenshot
  | zoom (x y width height : ℤ)
  | set_enhance_mode (enabled : Bool)
  | list_screenshots (limit : ℤ)
  | view_screenshot (filename : String)
  | get_screen_size
  | left_click (x y : ℤ)
  | right_click (x y : ℤ)
  | double_click (x y : ℤ)
  | mouse_move (x y : ℤ)
  | drag (start_x start_y end_x end_y : ℤ)
  | type_text (text : String)
  | type_unicode (text : String)
  | key (keys : String)
  | scrollTool (x y : ℤ) (direction : String) (amount : ℤ)
  | wait (seconds : ℚ)
  | get_mouse_position
  | get_taskbar_apps
  | click_taskbar_app (app_name : String)
  | get_all_windows
  | find_and_click_window (title : String)
  | get_ui_state
  | ocr_screen
  | describe_screen
  | verify_text_on_screen (expected_text : String)

/-- Effect of one tool call on the module-global `_enhance_enabled` flag.
In the source, `set_enhance_mode` is the only tool whose body assigns the
global (`_enhance_enabled = enabled`, line 423); `capture_screenshot` and
`zoom` contain `global _enhance_enabled` declarations but only read it, and
no other tool body mentions the flag at all, so every other tool leaves it
unchanged. -/
def runToolFlag : MCPTool → Bool → Bool
  | .set_enhance_mode enabled, _ => enabled
  | _, flag => flag

/-- Whether the helper `capture_screenshot` applies `apply_enhancement`:
`force_enhance if force_enhance is not None else _enhance_enabled`. -/
def capture_screenshot_enhances (force_enhance : Option Bool) (flag : Bool) : Bool :=
  force_enhance.getD flag

/-- Whether the `screenshot` tool enhances: it calls `capture_screenshot()`
with `force_enhance` left at its `None` default. -/
def screenshot_enhances (flag : Bool) : Bool :=
  capture_screenshot_enhances none flag

/-- Whether the `zoom` tool enhances: it tests `_enhance_enabled` directly. -/
def zoom_enhances (flag : Bool) : Bool :=
  flag

end MCP

/-- A content block of an Anthropic API message, as the agent loop consumes
and produces it: text, a base64 screenshot image, a model tool call, or a
tool result sent back to the model. -/
inductive Block where
  | text (t : String)
  | image (data : String)
  | tool_use (id : String) (action : Option String) (params : Params)
  | tool_result (tool_use_id : String) (content : List Block)

/-- A model response: its stop reason and its content blocks. -/
structure Response where
  stop_reason : String
  content : List Block

/-- One message of the conversation history. -/
structure Message where
  role : String
  content : List Block

namespace ComputerUseAgent

/-- The screenshot attached after every action.  Actual pixel data comes
from the external capture call and is opaque to the loop logic. -/
def screenshotData : String := "screenshot"

/-- The final-result extraction of `run`: the first block carrying a `text`
attribute, or "Task completed" when none exists. -/
def extractText : List Block → String
  | [] => "Task completed"
  | (Block.text t) :: _ => t
  | _ :: rest => extractText rest

/-- Whether a response's content carries a tool invocation. -/
def hasToolUse : List Block → Bool
  | [] => false
  | (Block.tool_use _ _ _) :: _ => true
  | _ :: rest => hasToolUse rest

/-- The tool-result blocks built from one response: for each `tool_use`
block, in order, execute the action (name defaulting to "screenshot") and
answer with its status text plus a fresh screenshot. -/
def toolResults (s : ℚ) : List Block → List Block
  | [] => []
  | (Block.tool_use id action params) :: rest =>
      Block.tool_result id
        [Block.text (ActionExecutor.execute s (action.getD "screenshot") params).2,
         Block.image screenshotData] :: toolResults s rest
  | _ :: rest => toolResults s rest

/-- What one iteration of the `for` loop in `run` decides. -/
inductive StepResult where
  | done (result : String)
  | next (messages : List Message)

/-- One iteration of `run`: call the model on the current conversation; if
`stop_reason == "end_turn"` return the extracted text, otherwise append
the assistant response and the tool results and continue. -/
def loopStep (model : List Message → Response) (s : ℚ)
    (messages : List Message) : StepResult :=
  let r := model messages
  if r.stop_reason = "end_turn" then .done (extractText r.content)
  else .next (messages ++
    [⟨"assistant", r.content⟩, ⟨"user", toolResults s r.content⟩])

/-- `ComputerUseAgent.run`'s iteration structure: up to `max_iterations`
loop steps, then "Max iterations reached".  The second component counts the
model turns actually performed (the per-iteration console banner makes this
count observable in the source). -/
def runAgent (model : List Message → Response) (s : ℚ) :
    ℕ → List Message → String × ℕ
  | 0, _ => ("Max iterations reached", 0)
  | n + 1, messages =>
    match loopStep model s messages with
    | .done t => (t, 1)
    | .next ms =>
        let r := runAgent model s n ms
        (r.1, r.2 + 1)

end ComputerUseAgent

/-- On a non-negative rational, Python truncation agrees with the floor. -/
lemma pyInt_of_nonneg {q : ℚ} (hq : 0 ≤ q) : pyInt q = ⌊q⌋ := by
  simp [pyInt, not_lt.mpr hq]

/-- The floor of a rational is within distance 1 of the rational itself. -/
lemma abs_floor_sub_le_one (q : ℚ) : |(⌊q⌋ : ℚ) - q| ≤ 1 := by
  have h1 : (⌊q⌋ : ℚ) ≤ q := Int.floor_le q
  have h2 : q < (⌊q⌋ : ℚ) + 1 := Int.lt_floor_add_one q
  rw [abs_le]
  constructor <;> linarith

example : ScreenCapture.scale_coordinates (1/2) 200 100 = (400, 200) := by
  norm_num [ScreenCapture.scale_coordinates, pyInt]

example : ScreenCapture._calculate_scale_factor 2560 1440 1280 = 1/2 := by
  norm_num [ScreenCapture._calculate_scale_factor]

example : ScreenCapture.native_to_scaled (1/2) 3 = 1 := by
  norm_num [ScreenCapture.native_to_scaled, pyInt]

/-- C1: for every point (x, y) with x ≥ 0 and y ≥ 0 in the scaled image's
pixel space and every scale factor s in (0, 1], `scale_coordinates` returns
the native-screen point obtained by dividing each coordinate by s and
truncating: (⌊x/s⌋, ⌊y/s⌋). -/
theorem C1_scale_coordinates (s : ℚ) (hs0 : 0 < s) (hs1 : s ≤ 1)
    (x y : ℤ) (hx : 0 ≤ x) (hy : 0 ≤ y) :
    ScreenCapture.scale_coordinates s x y = (⌊(x : ℚ) / s⌋, ⌊(y : ℚ) / s⌋) := by
  have hxq : (0 : ℚ) ≤ (x : ℚ) / s := by positivity
  have hyq : (0 : ℚ) ≤ (y : ℚ) / s := by positivity
  rw [ScreenCapture.scale_coordinates]
  by_cases h : s < 1
  · rw [if_pos h, pyInt_of_nonneg hxq, pyInt_of_nonneg hyq]
  · have hs : s = 1 := le_antisymm hs1 (not_lt.mp h)
    subst hs
    simp

/-- C1 witness: with s = 0.5 the scaled-image point (200, 100) maps to the
native point (400, 200). -/
theorem C1_witness : ScreenCapture.scale_coordinates (1/2) 200 100 = (400, 200) := by
  have h := C1_scale_coordinates (1/2) (by norm_num) (by norm_num) 200 100
    (by norm_num) (by norm_num)
  rw [h]
  norm_num

/-- C2: for every display width w ≥ 1, height h ≥ 1 and max_dimension m ≥ 1,
the scale factor computed at `ScreenCapture` construction equals
min(1, m / max(w, h)) and satisfies 0 < scale ≤ 1. -/
theorem C2_scale_factor (w h m : ℕ) (hw : 1 ≤ w) (hh : 1 ≤ h) (hm : 1 ≤ m) :
    ScreenCapture._calculate_scale_factor w h m
        = min 1 ((m : ℚ) / ((max w h : ℕ) : ℚ)) ∧
    0 < ScreenCapture._calculate_scale_factor w h m ∧
    ScreenCapture._calculate_scale_factor w h m ≤ 1 := by
  have hMn : 1 ≤ max w h := le_trans hw (le_max_left w h)
  have hM : (0 : ℚ) < ((max w h : ℕ) : ℚ) := by exact_mod_cast Nat.lt_of_lt_of_le Nat.zero_lt_one hMn
  have hm0 : (0 : ℚ) < (m : ℚ) := by exact_mod_cast Nat.lt_of_lt_of_le Nat.zero_lt_one hm
  rw [ScreenCapture._calculate_scale_factor]
  by_cases hc : max w h ≤ m
  · have hge : (1 : ℚ) ≤ (m : ℚ) / ((max w h : ℕ) : ℚ) := by
      rw [le_div_iff₀ hM]
      simpa using (by exact_mod_cast hc : ((max w h : ℕ) : ℚ) ≤ (m : ℚ))
    rw [if_pos hc, min_eq_left hge]
    norm_num
  · have hlt : (m : ℚ) < ((max w h : ℕ) : ℚ) := by exact_mod_cast Nat.lt_of_not_le hc
    have hle : (m : ℚ) / ((max w h : ℕ) : ℚ) ≤ 1 := by
      rw [div_le_one hM]
      exact le_of_lt hlt
    rw [if_neg hc, min_eq_right hle]
    refine ⟨rfl, div_pos hm0 hM, hle⟩

/-- C7: composing the native→scaled map (multiplication by s with
truncation, from `capture`'s resize) with the scaled→native map
`scale_coordinates` (division by s with truncation) lands within one pixel
of (⌊x·s⌋/s, ⌊y·s⌋/s) in each coordinate; and the round-trip is not exact
(e.g. native 3 at s = 1/2 comes back as 2). -/
theorem C7_roundtrip :
    (∀ s : ℚ, 0 < s → s ≤ 1 → ∀ x y : ℤ, 0 ≤ x → 0 ≤ y →
      |(((ScreenCapture.scale_coordinates s (ScreenCapture.native_to_scaled s x)
            (ScreenCapture.native_to_scaled s y)).1 : ℚ) - (⌊(x : ℚ) * s⌋ : ℚ) / s)| ≤ 1 ∧
      |(((ScreenCapture.scale_coordinates s (ScreenCapture.native_to_scaled s x)
            (ScreenCapture.native_to_scaled s y)).2 : ℚ) - (⌊(y : ℚ) * s⌋ : ℚ) / s)| ≤ 1) ∧
    ScreenCapture.scale_coordinates (1/2) (ScreenCapture.native_to_scaled (1/2) 3)
        (ScreenCapture.native_to_scaled (1/2) 3) ≠ (3, 3) := by
  constructor
  · intro s hs0 hs1 x y hx hy
    by_cases h : s < 1
    · have hxs : (0 : ℚ) ≤ (x : ℚ) * s := by positivity
      have hys : (0 : ℚ) ≤ (y : ℚ) * s := by positivity
      have hax : (0 : ℚ) ≤ ((⌊(x : ℚ) * s⌋ : ℤ) : ℚ) := by
        exact_mod_cast Int.floor_nonneg.mpr hxs
      have hay : (0 : ℚ) ≤ ((⌊(y : ℚ) * s⌋ : ℤ) : ℚ) := by
        exact_mod_cast Int.floor_nonneg.mpr hys
      simp only [ScreenCapture.native_to_scaled, ScreenCapture.scale_coordinates, if_pos h]
      rw [pyInt_of_nonneg hxs, pyInt_of_nonneg hys,
        pyInt_of_nonneg (div_nonneg hax (le_of_lt hs0)),
        pyInt_of_nonneg (div_nonneg hay (le_of_lt hs0))]
      exact ⟨abs_floor_sub_le_one _, abs_floor_sub_le_one _⟩
    · have hs : s = 1 := le_antisymm hs1 (not_lt.mp h)
      subst hs
      simp [ScreenCapture.native_to_scaled, ScreenCapture.scale_coordinates]
  · norm_num [ScreenCapture.scale_coordinates, ScreenCapture.native_to_scaled, pyInt,
      Prod.ext_iff]

/-- C7 witness: at s = 1/2, native point (200, 100) survives the
scaled→native round-trip to within one pixel of (⌊200·s⌋/s, ⌊100·s⌋/s). -/
theorem C7_witness :
    |(((ScreenCapture.scale_coordinates (1/2) (ScreenCapture.native_to_scaled (1/2) 200)
          (ScreenCapture.native_to_scaled (1/2) 100)).1 : ℚ)
        - (⌊(200 : ℚ) * (1/2)⌋ : ℚ) / (1/2))| ≤ 1 ∧
    |(((ScreenCapture.scale_coordinates (1/2) (ScreenCapture.native_to_scaled (1/2) 200)
          (ScreenCapture.native_to_scaled (1/2) 100)).2 : ℚ)
        - (⌊(100 : ℚ) * (1/2)⌋ : ℚ) / (1/2))| ≤ 1 :=
  C7_roundtrip.1 (1/2) (by norm_num) (by norm_num) 200 100 (by norm_num) (by norm_num)

/-- C2 witness: a 2560×1440 display with max_dimension 1280 gives scale
factor 1/2 = min(1, 1280/2560), which lies in (0, 1]. -/
theorem C2_witness :
    ScreenCapture._calculate_scale_factor 2560 1440 1280
        = min 1 ((1280 : ℚ) / ((max 2560 1440 : ℕ) : ℚ)) ∧
    0 < ScreenCapture._calculate_scale_factor 2560 1440 1280 ∧
    ScreenCapture._calculate_scale_factor 2560 1440 1280 ≤ 1 :=
  C2_scale_factor 2560 1440 1280 (by norm_num) (by norm_num) (by norm_num)

example : ScreenCapture.scale_coordinates 1 10 20 = (10, 20) := rfl

example : ActionExecutor.execute 1 "fly" {} = ([], "Unknown action: fly") := rfl

example : ActionExecutor.execute 1 "left_click" {}
    = ([], "Error executing left_click: missing a required argument: coordinate") := rfl

example : ActionExecutor.execute 1 "wait" { duration := some 0 }
    = ([.sleep 0], "Waited 0 seconds") := rfl

example : (ActionExecutor.execute 1 "scroll"
    { coordinate := some [10, 20], direction := some "right" }).1
    = [.moveTo 10 20, .hscroll (-3)] := rfl

example : (MCP.scroll 10 20 "right" 3).1 = [.moveTo 10 20, .hscroll 3] := rfl

/-- C3: for every action name with no registered handler and every
parameter mapping, `ActionExecutor.execute` returns the "Unknown action"
message, does not raise (it is a total function into a plain result), and
injects no input event. -/
theorem C3_unknown_action (s : ℚ) (action : String) (p : Params)
    (h : ActionExecutor.findHandler action = none) :
    ActionExecutor.execute s action p = ([], s!"Unknown action: {action}") := by
  simp [ActionExecutor.execute, h]

/-- C3 witness: the unregistered action name "fly" yields the "Unknown
action" message and no side effect. -/
theorem C3_witness :
    ActionExecutor.execute 1 "fly" {} = ([], "Unknown action: fly") :=
  C3_unknown_action 1 "fly" {} rfl

/-- C4: whenever the handler selected for an action raises, `execute`
catches the exception and returns "Error executing <action>: ..." instead
of propagating it. -/
theorem C4_handler_exception (s : ℚ) (action : String) (p : Params)
    (handler : Handler) (events : List InputEvent) (e : String)
    (hfind : ActionExecutor.findHandler action = some handler)
    (hraise : handler s p = (events, .error e)) :
    ActionExecutor.execute s action p
      = (events, s!"Error executing {action}: {e}") := by
  simp [ActionExecutor.execute, hfind, hraise]

/-- C4 witness: "left_click" with the `coordinate` parameter missing makes
the handler raise; `execute` converts that into an error string. -/
theorem C4_witness :
    ActionExecutor.execute 1 "left_click" {}
      = ([], "Error executing left_click: missing a required argument: coordinate") :=
  C4_handler_exception 1 "left_click" {} ActionExecutor._action_left_click []
    "missing a required argument: coordinate" rfl rfl

/-- C8: for every duration d ≥ 0, dispatching "wait" with that duration
sleeps synchronously for d seconds and returns "Waited <d> seconds". -/
theorem C8_wait (s : ℚ) (d : ℤ) (hd : 0 ≤ d) :
    ActionExecutor.execute s "wait" { duration := some d }
      = ([.sleep d], s!"Waited {d} seconds") :=
  rfl

/-- C8 witness: dispatching "wait" with duration 0 sleeps for zero seconds
and reports "Waited 0 seconds". -/
theorem C8_witness :
    ActionExecutor.execute 1 "wait" { duration := some 0 }
      = ([.sleep 0], "Waited 0 seconds") := by
  rw [C8_wait 1 0 le_rfl]
  rfl

/-- C9: the agent's scroll handler and the MCP server's scroll tool inject
the SAME vertical scroll for "up"/"down" but OPPOSITE-sign horizontal
scrolls: at direction "right" with amount 3 (and no coordinate scaling of
either side), the agent injects `hscroll (-3)` where the MCP tool injects
`hscroll 3` — the agent's horizontal sign is inverted relative to the
pyautogui convention its own status string ("Scrolled right ...") claims. -/
theorem C9_scroll_divergence :
    (ActionExecutor.execute 1 "scroll"
        { coordinate := some [10, 20], direction := some "right" }).1
      = [.moveTo 10 20, .hscroll (-3)] ∧
    (MCP.scroll 10 20 "right" 3).1 = [.moveTo 10 20, .hscroll 3] ∧
    (ActionExecutor.execute 1 "scroll"
        { coordinate := some [10, 20], direction := some "right" }).1
      ≠ (MCP.scroll 10 20 "right" 3).1 ∧
    (ActionExecutor.execute 1 "scroll"
        { coordinate := some [10, 20], direction := some "up" }).1
      = (MCP.scroll 10 20 "up" 3).1 := by
  refine ⟨rfl, rfl, by decide, rfl⟩

/-- C5: if the model never answers with stop reason "end_turn", the agent
loop performs exactly `max_iterations` turns and then reports
"Max iterations reached", regardless of task completion. -/
theorem C5_max_iterations (model : List Message → Response) (s : ℚ)
    (h : ∀ ms, (model ms).stop_reason ≠ "end_turn")
    (n : ℕ) (ms : List Message) :
    ComputerUseAgent.runAgent model s n ms = ("Max iterations reached", n) := by
  induction n generalizing ms with
  | zero => rfl
  | succ k ih =>
      rw [ComputerUseAgent.runAgent]
      rw [ComputerUseAgent.loopStep]
      rw [if_neg (h ms)]
      simp [ih]

/-- C5 witness: a model that always requests tools makes a 3-iteration run
stop after exactly 3 turns with "Max iterations reached". -/
theorem C5_witness :
    ComputerUseAgent.runAgent (fun _ => ⟨"tool_use", []⟩) 1 3 []
      = ("Max iterations reached", 3) :=
  C5_max_iterations (fun _ => ⟨"tool_use", []⟩) 1 (fun _ => by simp) 3 []

/-- C6 counterexample: the loop's DONE test is `stop_reason == "end_turn"`,
not the absence of tool invocations.  A response with stop reason
"max_tokens" and a lone text block carries no tool invocation, yet the loop
does not transition to DONE on it and never returns its text: a
1-iteration run ends with "Max iterations reached" instead. -/
theorem C6_counterexample :
    ComputerUseAgent.hasToolUse [Block.text "partial answer"] = false ∧
    ComputerUseAgent.loopStep
        (fun _ => ⟨"max_tokens", [Block.text "partial answer"]⟩) 1 []
      ≠ ComputerUseAgent.StepResult.done (ComputerUseAgent.extractText [Block.text "partial answer"]) ∧
    (ComputerUseAgent.runAgent
        (fun _ => ⟨"max_tokens", [Block.text "partial answer"]⟩) 1 1 []).1
      = "Max iterations reached" := by
  refine ⟨rfl, ?_, rfl⟩
  intro h
  simp [ComputerUseAgent.loopStep] at h

/-- C6 (amended): the loop transitions to DONE exactly when the model
response's stop_reason is "end_turn"; in that case the text of the
response's first text block is returned as the final result ("Task
completed" when it has none). -/
theorem C6_end_turn (model : List Message → Response) (s : ℚ)
    (msgs : List Message) :
    ((∃ t, ComputerUseAgent.loopStep model s msgs = .done t)
        ↔ (model msgs).stop_reason = "end_turn") ∧
    ((model msgs).stop_reason = "end_turn" →
      ComputerUseAgent.loopStep model s msgs
        = .done (ComputerUseAgent.extractText (model msgs).content)) := by
  refine ⟨⟨?_, ?_⟩, ?_⟩
  · rintro ⟨t, ht⟩
    by_contra hne
    rw [ComputerUseAgent.loopStep] at ht
    simp only [if_neg hne] at ht
    exact ComputerUseAgent.StepResult.noConfusion ht
  · intro he
    refine ⟨ComputerUseAgent.extractText (model msgs).content, ?_⟩
    rw [ComputerUseAgent.loopStep]
    simp only [if_pos he]
  · intro he
    rw [ComputerUseAgent.loopStep]
    simp only [if_pos he]

/-- C6 witness: on a model whose response has stop reason "end_turn" and
text "All done", the loop transitions to DONE with that text. -/
theorem C6_witness :
    ComputerUseAgent.loopStep (fun _ => ⟨"end_turn", [Block.text "All done"]⟩) 1 []
      = ComputerUseAgent.StepResult.done "All done" :=
  (C6_end_turn (fun _ => ⟨"end_turn", [Block.text "All done"]⟩) 1 []).2 rfl

/-- C10: the global `_enhance_enabled` flag is modified only by
`set_enhance_mode` — every other tool's call leaves it unchanged — and the
`screenshot` and `zoom` tools apply the contrast-enhancement pipeline if
and only if the flag is set at the time of the call. -/
theorem C10_enhance_flag :
    (∀ (t : MCP.MCPTool) (flag : Bool),
        (∀ e : Bool, t ≠ MCP.MCPTool.set_enhance_mode e) →
        MCP.runToolFlag t flag = flag) ∧
    (∀ e flag : Bool, MCP.runToolFlag (MCP.MCPTool.set_enhance_mode e) flag = e) ∧
    (∀ flag : Bool,
        MCP.screenshot_enhances flag = flag ∧ MCP.zoom_enhances flag = flag) := by
  refine ⟨?_, fun e flag => rfl, fun flag => ⟨rfl, rfl⟩⟩
  intro t flag ht
  cases t <;> first
    | rfl
    | exact absurd rfl (ht _)

/-- C10 witness: the screenshot tool leaves an enabled flag enabled,
`set_enhance_mode False` clears it, and with the flag enabled both the
screenshot and zoom tools enhance. -/
theorem C10_witness :
    MCP.runToolFlag MCP.MCPTool.screenshot true = true ∧
    MCP.runToolFlag (MCP.MCPTool.set_enhance_mode false) true = false ∧
    MCP.screenshot_enhances true = true ∧
    MCP.zoom_enhances true = true :=
  ⟨C10_enhance_flag.1 MCP.MCPTool.screenshot true
      (fun _ h => MCP.MCPTool.noConfusion h),
   C10_enhance_flag.2.1 false true,
   (C10_enhance_flag.2.2 true).1,
   (C10_enhance_flag.2.2 true).2⟩
